import Mathlib

/-!
Shallow embedding of the display-comparison application.

The embedded code:
* `calculateDimensions` and its callers in `src/src/App.tsx` (the second,
  current draft in that file: the geometry calculator, the colour palette,
  the `updateComparison` recompute pipeline and the `addScreen` handler);
* the reducer-based store `useScreenListControl` in `src/unnamed/part_001`.

JavaScript numbers are modelled as real numbers extended with a NaN value
(`JsNum`): every comparison involving NaN is false, and NaN propagates
through arithmetic, exactly as in IEEE/JavaScript semantics. The model has
no infinities; every claim settled below only evaluates division at a
divisor that is either NaN or a nonzero real, where JavaScript division
agrees with real division respectively NaN propagation.
-/

namespace DisplayComparison

/-- A JavaScript number: a real value or NaN (no infinities, see above). -/
inductive JsNum where
  | num (x : ℝ)
  | nan

namespace JsNum

/-- JavaScript `a <= b`: false whenever either side is NaN. -/
def jsLe : JsNum → JsNum → Prop
  | num x, num y => x ≤ y
  | _, _ => False

/-- JavaScript multiplication; NaN propagates. -/
noncomputable def jsMul : JsNum → JsNum → JsNum
  | num x, num y => num (x * y)
  | _, _ => nan

/-- JavaScript addition; NaN propagates. -/
noncomputable def jsAdd : JsNum → JsNum → JsNum
  | num x, num y => num (x + y)
  | _, _ => nan

/-- JavaScript division; NaN propagates. Division of a real by zero is
mapped to NaN because the model has no infinities; no claim below evaluates
this case (each divisor reached is NaN or a nonzero real). -/
noncomputable def jsDiv : JsNum → JsNum → JsNum
  | num x, num y => open Classical in if y = 0 then nan else num (x / y)
  | _, _ => nan

/-- JavaScript `Math.sqrt`: NaN on NaN or negative input. -/
noncomputable def jsSqrt : JsNum → JsNum
  | num x => open Classical in if x < 0 then nan else num (Real.sqrt x)
  | nan => nan

/-- JavaScript `isNaN` on a number. -/
def jsIsNaN (a : JsNum) : Prop := a = nan

theorem jsLe_num {x y : ℝ} : jsLe (num x) (num y) ↔ x ≤ y := Iff.rfl

theorem not_jsLe_nan_left (b : JsNum) : ¬ jsLe nan b := by
  cases b <;> simp [jsLe]

theorem jsMul_num (x y : ℝ) : jsMul (num x) (num y) = num (x * y) := rfl

theorem jsAdd_num (x y : ℝ) : jsAdd (num x) (num y) = num (x + y) := rfl

theorem jsDiv_num_of_ne {x y : ℝ} (h : y ≠ 0) :
    jsDiv (num x) (num y) = num (x / y) := by
  simp [jsDiv, h]

theorem jsSqrt_num_of_nonneg {x : ℝ} (h : 0 ≤ x) :
    jsSqrt (num x) = num (Real.sqrt x) := by
  simp [jsSqrt, not_lt.mpr h]

end JsNum

open JsNum

/-- Result record of the geometry calculator
(`CalculatedDimensions` in `src/src/App.tsx`). -/
structure CalculatedDimensions where
  width : JsNum
  height : JsNum
  area : JsNum

/-- `calculateDimensions` from `src/src/App.tsx` (lines 443-457): guard on
`diagonal <= 0 || aspectRatio <= 0`, then the Pythagorean solution. The
JavaScript comparisons are `jsLe`, hence false on NaN. -/
noncomputable def calculateDimensions (diagonal aspectRatio : JsNum) :
    CalculatedDimensions :=
  open Classical in
  if jsLe diagonal (num 0) ∨ jsLe aspectRatio (num 0) then
    { width := num 0, height := num 0, area := num 0 }
  else
    let R_squared := jsMul aspectRatio aspectRatio
    let denominator := jsSqrt (jsAdd R_squared (num 1))
    let height := jsDiv diagonal denominator
    let width := jsMul aspectRatio height
    let area := jsMul width height
    { width := width, height := height, area := area }

/-- On positive real inputs the calculator takes the arithmetic branch and
produces exactly the algebraic solution `h = d / sqrt(r*r + 1)`,
`w = r * h`, `area = w * h`. -/
theorem calculateDimensions_pos {d r : ℝ} (hd : 0 < d) (hr : 0 < r) :
    calculateDimensions (num d) (num r) =
      { width := num (r * (d / Real.sqrt (r * r + 1))),
        height := num (d / Real.sqrt (r * r + 1)),
        area := num ((r * (d / Real.sqrt (r * r + 1))) *
          (d / Real.sqrt (r * r + 1))) } := by
  have hguard : ¬ (jsLe (num d) (num 0) ∨ jsLe (num r) (num 0)) := by
    simp only [jsLe_num, not_or, not_le]
    exact ⟨hd, hr⟩
  have hsq : (0 : ℝ) ≤ r * r + 1 := by positivity
  have hsqrt : Real.sqrt (r * r + 1) ≠ 0 := by
    have : (0 : ℝ) < r * r + 1 := by positivity
    exact ne_of_gt (Real.sqrt_pos.mpr this)
  rw [calculateDimensions, if_neg hguard]
  simp only [jsMul_num, jsAdd_num, jsSqrt_num_of_nonneg hsq,
    jsDiv_num_of_ne hsqrt]

/-- A single screen input entry (`ScreenData` in `src/src/App.tsx`):
diagonal in inches plus the two aspect-ratio components and a colour. -/
structure ScreenData where
  diagonal : JsNum
  aspectX : JsNum
  aspectY : JsNum
  colour : String

/-- A computed entry (`CalculatedScreen` in `src/src/App.tsx`): the input
data spread together with the computed dimensions and the react-hook-form
field id. -/
structure CalculatedScreen where
  diagonal : JsNum
  aspectX : JsNum
  aspectY : JsNum
  colour : String
  width : JsNum
  height : JsNum
  area : JsNum
  id : String

/-- The fixed colour palette `colourPalette` of `src/src/App.tsx`
(lines 460-469): eight Tailwind 500-level hex codes. -/
def colourPalette : List String :=
  ["#f59e0b", "#10b981", "#ef4444", "#3b82f6",
   "#8b5cf6", "#f97316", "#a855f7", "#6366f1"]

/-- `getNextColour` of `src/src/App.tsx` (lines 471-473):
`colourPalette[currentLength % colourPalette.length]`. The modulus keeps
the index in bounds, so the `getD` default is never used. -/
def getNextColour (currentLength : ℕ) : String :=
  colourPalette.getD (currentLength % colourPalette.length) ""

/-- The two default entries `defaultScreens` of `src/src/App.tsx`
(lines 475-478). -/
noncomputable def defaultScreens : List ScreenData :=
  [{ diagonal := num 27, aspectX := num 16, aspectY := num 9,
     colour := "#3b82f6" },
   { diagonal := num 32, aspectX := num 21, aspectY := num 9,
     colour := "#10b981" }]

/-- The per-entry validity check inside `updateComparison`
(`src/src/App.tsx` line 714): an entry is flagged when any of diagonal,
aspectX, aspectY is NaN or `<= 0`. -/
def screenHasError (s : ScreenData) : Prop :=
  jsIsNaN s.diagonal ∨ jsLe s.diagonal (num 0) ∨
  jsIsNaN s.aspectX ∨ jsLe s.aspectX (num 0) ∨
  jsIsNaN s.aspectY ∨ jsLe s.aspectY (num 0)

/-- The per-entry derivation inside the `forEach` of `updateComparison`
(`src/src/App.tsx` lines 718-722): the single ratio `aspectX / aspectY` is
fed to the geometry calculator and the result is spread over the entry
together with the field id. -/
noncomputable def deriveScreen (s : ScreenData) (fieldId : String) :
    CalculatedScreen :=
  let ratio := jsDiv s.aspectX s.aspectY
  let dims := calculateDimensions s.diagonal ratio
  { diagonal := s.diagonal, aspectX := s.aspectX, aspectY := s.aspectY,
    colour := s.colour, width := dims.width, height := dims.height,
    area := dims.area, id := fieldId }

/-- `updateComparison` of `src/src/App.tsx` (lines 699-732) as a function
from its inputs to the published `(errorMsg, calculatedScreens)` pair.
`fieldErrors` models `Object.keys(errors).length > 0` (react-hook-form
field-level errors present). Each screen is paired with its parallel
react-hook-form field id (`fields[index].id`). -/
noncomputable def updateComparison (fieldErrors : Bool)
    (screens : List (ScreenData × String)) :
    String × List CalculatedScreen :=
  open Classical in
  if fieldErrors then
    ("Please correct the input errors (highlighted in red).", [])
  else
    let results := screens.map fun p => deriveScreen p.1 p.2
    if ∃ p ∈ screens, screenHasError p.1 then
      ("Please ensure all screens have valid, positive diagonal, X, and Y values.", [])
    else
      ("", results)

/-- The fresh entry built by `addScreen` (`src/src/App.tsx` lines 754-759). -/
noncomputable def newScreenData (currentLength : ℕ) : ScreenData :=
  { diagonal := num 24, aspectX := num 16, aspectY := num 9,
    colour := getNextColour currentLength }

/-- `addScreen` of `src/src/App.tsx` (lines 747-761) as a function from the
current field list to the next field list and the reported error message:
at six or more screens it reports the capacity message and leaves the list
alone, otherwise it clears the message and appends the default entry. -/
noncomputable def addScreen (screens : List ScreenData) :
    List ScreenData × String :=
  if 6 ≤ screens.length then
    (screens, "Maximum of 6 screens allowed for comparison.")
  else
    (screens ++ [newScreenData screens.length], "")

/-- One user-visible mutation of the screen list offered by the App
component of `src/src/App.tsx`: the add button (`addScreen`), the remove
button of a `ScreenInputCard` (rendered only when `screenCount > 1`,
lines 519-530, and removing exactly the card's index via the
`useFieldArray` `remove`), and a field edit through a `Controller`
(replacing one entry's data in place). -/
inductive AppStep : List ScreenData → List ScreenData → Prop
  | add (s : List ScreenData) : AppStep s (addScreen s).1
  | removeCard (s : List ScreenData) (i : ℕ) (hlen : 1 < s.length)
      (hi : i < s.length) : AppStep s (s.eraseIdx i)
  | updateField (s : List ScreenData) (i : ℕ) (d : ScreenData) :
      AppStep s (s.set i d)

/-- Screen lists reachable in the App component from its initial
`defaultScreens` state by user-visible mutations. -/
inductive AppReachable : List ScreenData → Prop
  | init : AppReachable defaultScreens
  | step {s t : List ScreenData} : AppReachable s → AppStep s t →
      AppReachable t

end DisplayComparison

namespace ScreenListControl

open DisplayComparison

/-- `DisplayInfo` of `src/unnamed/part_001`. The reducer never computes
with or compares the numeric fields, so the rationals carry the stored
literals faithfully. -/
structure DisplayInfo where
  diagonalSize : ℚ
  aspectRatio : ℚ × ℚ
  colour : String
deriving DecidableEq, Repr

/-- The store state of `src/unnamed/part_001`. -/
structure State where
  displays : List DisplayInfo
deriving DecidableEq, Repr

/-- `initialState` of `src/unnamed/part_001` (lines 13-21): one display. -/
def initialState : State :=
  { displays := [{ diagonalSize := 27, aspectRatio := (16, 9),
                   colour := "red" }] }

/-- The reducer actions of `src/unnamed/part_001`. Indices are natural
numbers: the hooks only ever dispatch nonnegative array indices. -/
inductive Action where
  | addDisplay (payload : DisplayInfo)
  | removeDisplay (payload : ℕ)
  | updateDisplayInfo (index : ℕ) (data : DisplayInfo)
  | reset

/-- The reducer of `src/unnamed/part_001` (lines 29-48).
`REMOVE_DISPLAY` runs `displays.toSpliced(payload)`: with the delete count
omitted, JavaScript `toSpliced` removes every element from `payload` to the
end, which is `List.take payload`. `UPDATE_DISPLAY_INFO` runs
`toSpliced(index, 1, data)` under an in-bounds guard, which is
`List.set index data`. -/
def reducer (state : State) (action : Action) : State :=
  match action with
  | .addDisplay payload => { displays := state.displays ++ [payload] }
  | .removeDisplay payload => { displays := state.displays.take payload }
  | .updateDisplayInfo index data =>
      if index < state.displays.length then
        { displays := state.displays.set index data }
      else
        state
  | .reset => initialState

/-- `getRandomColour` of `src/unnamed/part_001` (lines 50-52): a stub that
always returns red. -/
def getRandomColour (currentColours : List String) : String := "red"

/-- The `addDisplay` callback of `useScreenListControl`
(`src/unnamed/part_001` lines 59-68): dispatches `ADD_DISPLAY` with a fixed
27-inch 16:9 payload coloured by `getRandomColour`. -/
def addDisplay (s : State) : State :=
  reducer s (.addDisplay
    { diagonalSize := 27, aspectRatio := (16, 9),
      colour := getRandomColour (s.displays.map (·.colour)) })

end ScreenListControl

namespace DisplayComparison

open JsNum

/-- C1: for every diagonal `d > 0` and aspect components `x > 0`, `y > 0`,
the geometry calculator at ratio `x / y` returns exactly
`height = d / sqrt((x/y)^2 + 1)`, `width = (x/y) * height` and
`area = width * height`, in that algebraic form, with no rounding. -/
theorem calculateDimensions_formula (d x y : ℝ) (hd : 0 < d) (hx : 0 < x)
    (hy : 0 < y) :
    calculateDimensions (num d) (num (x / y)) =
      { width := num ((x / y) * (d / Real.sqrt ((x / y) ^ 2 + 1))),
        height := num (d / Real.sqrt ((x / y) ^ 2 + 1)),
        area := num (((x / y) * (d / Real.sqrt ((x / y) ^ 2 + 1))) *
          (d / Real.sqrt ((x / y) ^ 2 + 1))) } := by
  have hr : 0 < x / y := div_pos hx hy
  rw [calculateDimensions_pos hd hr, pow_two]

/-- Witness for C1 at the spec example 27-inch 16:9 screen. -/
theorem calculateDimensions_formula_witness :
    calculateDimensions (num 27) (num (16 / 9)) =
      { width := num ((16 / 9) *
          (27 / Real.sqrt (((16 : ℝ) / 9) ^ 2 + 1))),
        height := num (27 / Real.sqrt (((16 : ℝ) / 9) ^ 2 + 1)),
        area := num ((((16 : ℝ) / 9) *
          (27 / Real.sqrt (((16 : ℝ) / 9) ^ 2 + 1))) *
          (27 / Real.sqrt (((16 : ℝ) / 9) ^ 2 + 1))) } :=
  calculateDimensions_formula 27 16 9 (by norm_num) (by norm_num)
    (by norm_num)

/-- Evaluation of the calculator at a NaN diagonal: the guard comparisons
are false on NaN, so the arithmetic branch runs and NaN propagates. -/
theorem calculateDimensions_nan_eval :
    calculateDimensions JsNum.nan (num 1) =
      { width := JsNum.nan, height := JsNum.nan, area := JsNum.nan } := by
  rw [calculateDimensions, if_neg]
  · rfl
  · rintro (h | h)
    · exact not_jsLe_nan_left _ h
    · rw [jsLe_num] at h
      norm_num at h

/-- C2 counterexample: a NaN diagonal is not zeroed by the calculator; it
passes the `<= 0` guard (NaN comparisons are false in JavaScript) and the
result is NaN dimensions, not `{0, 0, 0}`. -/
theorem calculateDimensions_nan_not_zeroed :
    calculateDimensions JsNum.nan (num 1) ≠
      { width := num 0, height := num 0, area := num 0 } := by
  rw [calculateDimensions_nan_eval]
  intro h
  exact JsNum.noConfusion (congrArg CalculatedDimensions.width h)

/-- C2 amended: on real (non-NaN) inputs with the diagonal or the combined
ratio non-positive, the calculator returns `{width 0, height 0, area 0}`;
it is total. NaN inputs instead pass the guard and propagate. -/
theorem calculateDimensions_nonpos_zero (d r : ℝ) (h : d ≤ 0 ∨ r ≤ 0) :
    calculateDimensions (num d) (num r) =
      { width := num 0, height := num 0, area := num 0 } := by
  rw [calculateDimensions, if_pos]
  rcases h with h | h
  · exact Or.inl (jsLe_num.mpr h)
  · exact Or.inr (jsLe_num.mpr h)

/-- Witness for the amended C2 at diagonal `-1`, ratio `1`. -/
theorem calculateDimensions_nonpos_zero_witness :
    calculateDimensions (num (-1)) (num 1) =
      { width := num 0, height := num 0, area := num 0 } :=
  calculateDimensions_nonpos_zero (-1) 1 (Or.inl (by norm_num))

/-- An entry whose three numeric fields are positive reals passes the
per-entry validity check. -/
theorem not_screenHasError_of_pos {d x y : ℝ} (hd : 0 < d) (hx : 0 < x)
    (hy : 0 < y) (c : String) :
    ¬ screenHasError
      { diagonal := num d, aspectX := num x, aspectY := num y,
        colour := c } := by
  simp only [screenHasError, jsIsNaN, jsLe]
  push_neg
  exact ⟨fun h => JsNum.noConfusion h, hd,
    fun h => JsNum.noConfusion h, hx,
    fun h => JsNum.noConfusion h, hy⟩

/-- C3: with no field-level errors and every entry valid, `updateComparison`
publishes the full derived list, one derived screen per entry in collection
order (so of the same length), and clears the error message. -/
theorem updateComparison_all_valid (screens : List (ScreenData × String))
    (h : ∀ p ∈ screens, ¬ screenHasError p.1) :
    updateComparison false screens =
      ("", screens.map fun p => deriveScreen p.1 p.2) ∧
    (updateComparison false screens).2.length = screens.length := by
  have hne : ¬ ∃ p ∈ screens, screenHasError p.1 := by
    rintro ⟨p, hp, hbad⟩
    exact h p hp hbad
  have heq : updateComparison false screens =
      ("", screens.map fun p => deriveScreen p.1 p.2) := by
    rw [updateComparison, if_neg (by simp), if_neg hne]
  exact ⟨heq, by rw [heq]; exact List.length_map _ _⟩

/-- Witness for C3 on the two default screens paired with field ids. -/
theorem updateComparison_all_valid_witness :
    updateComparison false
        [({ diagonal := num 27, aspectX := num 16, aspectY := num 9,
            colour := "#3b82f6" }, "field-0"),
         ({ diagonal := num 32, aspectX := num 21, aspectY := num 9,
            colour := "#10b981" }, "field-1")] =
      ("", [deriveScreen
              { diagonal := num 27, aspectX := num 16, aspectY := num 9,
                colour := "#3b82f6" } "field-0",
            deriveScreen
              { diagonal := num 32, aspectX := num 21, aspectY := num 9,
                colour := "#10b981" } "field-1"]) := by
  have h := updateComparison_all_valid
    [({ diagonal := num 27, aspectX := num 16, aspectY := num 9,
        colour := "#3b82f6" }, "field-0"),
     ({ diagonal := num 32, aspectX := num 21, aspectY := num 9,
        colour := "#10b981" }, "field-1")]
    (by
      intro p hp
      rcases List.mem_cons.mp hp with h1 | h1
      · subst h1
        exact not_screenHasError_of_pos (by norm_num) (by norm_num)
          (by norm_num) _
      · rcases List.mem_cons.mp h1 with h2 | h2
        · subst h2
          exact not_screenHasError_of_pos (by norm_num) (by norm_num)
            (by norm_num) _
        · simp at h2)
  simpa using h.1

/-- C4: when some entry has a NaN or non-positive diagonal or aspect value,
`updateComparison` publishes a non-empty error message and an empty derived
list, whatever the field-level error flag says. -/
theorem updateComparison_invalid_entry (fieldErrors : Bool)
    (screens : List (ScreenData × String))
    (h : ∃ p ∈ screens, screenHasError p.1) :
    (updateComparison fieldErrors screens).1 ≠ "" ∧
    (updateComparison fieldErrors screens).2 = [] := by
  cases fieldErrors with
  | false =>
      rw [updateComparison, if_neg (by simp), if_pos h]
      refine ⟨?_, rfl⟩
      decide
  | true =>
      rw [updateComparison, if_pos rfl]
      refine ⟨?_, rfl⟩
      decide

/-- Witness for C4: the second entry's diagonal is `-5` while the first
entry stays valid; the message is set and the list cleared. -/
theorem updateComparison_invalid_entry_witness :
    (updateComparison false
        [({ diagonal := num 27, aspectX := num 16, aspectY := num 9,
            colour := "#3b82f6" }, "field-0"),
         ({ diagonal := num (-5), aspectX := num 16, aspectY := num 9,
            colour := "#10b981" }, "field-1")]).1 ≠ "" ∧
    (updateComparison false
        [({ diagonal := num 27, aspectX := num 16, aspectY := num 9,
            colour := "#3b82f6" }, "field-0"),
         ({ diagonal := num (-5), aspectX := num 16, aspectY := num 9,
            colour := "#10b981" }, "field-1")]).2 = [] :=
  updateComparison_invalid_entry false _
    ⟨({ diagonal := num (-5), aspectX := num 16, aspectY := num 9,
        colour := "#10b981" }, "field-1"),
     by simp,
     Or.inr (Or.inl (jsLe_num.mpr (by norm_num)))⟩

/-- C5: with the list already at six screens, `addScreen` reports the
capacity message and returns the list unchanged. -/
theorem addScreen_at_capacity (screens : List ScreenData)
    (h : screens.length = 6) :
    addScreen screens =
      (screens, "Maximum of 6 screens allowed for comparison.") := by
  rw [addScreen, if_pos (by omega)]

/-- Witness for C5 on a concrete six-element list. -/
theorem addScreen_at_capacity_witness :
    addScreen (List.replicate 6 (newScreenData 0)) =
      (List.replicate 6 (newScreenData 0),
       "Maximum of 6 screens allowed for comparison.") :=
  addScreen_at_capacity _ (by simp)

/-- C7 amended: at the App layer of `src/src/App.tsx` the collection never
becomes empty: starting from the two default screens, every list reachable
through the add button, the remove button (which is only rendered when
more than one screen exists) and field edits keeps at least one entry. -/
theorem appReachable_length_pos {s : List ScreenData}
    (h : AppReachable s) : 1 ≤ s.length := by
  induction h with
  | init => simp [defaultScreens]
  | step hr hst ih =>
      cases hst with
      | add =>
          rw [addScreen]
          split
          · exact ih
          · simp
      | removeCard i hlen hi =>
          have := List.length_eraseIdx_add_one hi
          omega
      | updateField i d =>
          rw [List.length_set]
          exact ih

/-- Witness for the amended C7 at the initial default state. -/
theorem appReachable_length_pos_witness : 1 ≤ defaultScreens.length :=
  appReachable_length_pos AppReachable.init

/-- C9: the palette has (at least) eight pairwise-distinct colours,
`getNextColour i` is `colourPalette[i % length]`, and the assignment is
cyclic with period `colourPalette.length`. -/
theorem getNextColour_cycles :
    8 ≤ colourPalette.length ∧ colourPalette.Nodup ∧
    (∀ i : ℕ, getNextColour i =
      colourPalette.getD (i % colourPalette.length) "") ∧
    (∀ i : ℕ, getNextColour (i + colourPalette.length) = getNextColour i) := by
  refine ⟨by decide, by decide, fun i => rfl, fun i => ?_⟩
  rw [getNextColour, getNextColour, Nat.add_mod_right]

end DisplayComparison

namespace ScreenListControl

/-- Evaluation of C6's failing input: dispatching `REMOVE_DISPLAY 0` on a
two-display store empties it (JavaScript `toSpliced(0)` with the delete
count omitted removes every element from index 0 on), instead of removing
only the display at index 0. -/
theorem reducer_removeDisplay_removes_suffix :
    (reducer
      { displays :=
          [{ diagonalSize := 27, aspectRatio := (16, 9), colour := "red" },
           { diagonalSize := 32, aspectRatio := (21, 9),
             colour := "blue" }] }
      (Action.removeDisplay 0)).displays = [] ∧
    ([{ diagonalSize := 27, aspectRatio := (16, 9), colour := "red" },
      { diagonalSize := 32, aspectRatio := (21, 9),
        colour := "blue" }] : List DisplayInfo).length = 2 :=
  ⟨rfl, rfl⟩

/-- C7 counterexample: the reducer store itself has no empty-collection
guard: its initial state has one display and `REMOVE_DISPLAY 0` is not a
no-op there; it reaches the empty collection. -/
theorem reducer_remove_last_empties :
    initialState.displays.length = 1 ∧
    (reducer initialState (Action.removeDisplay 0)).displays = [] :=
  ⟨rfl, rfl⟩

/-- C8 counterexample: `RESET` restores `initialState`, which has one
display, not two. -/
theorem reducer_reset_not_two_entries :
    (reducer { displays := [] } Action.reset).displays.length ≠ 2 := by
  decide

/-- C8 amended: `RESET` applied to any store state restores the initial
default state, which consists of exactly one entry with preset diagonal 27,
aspect ratio 16:9 and colour red. -/
theorem reducer_reset_restores_initial (s : State) :
    reducer s Action.reset = initialState ∧
    initialState.displays =
      [{ diagonalSize := 27, aspectRatio := (16, 9), colour := "red" }] :=
  ⟨rfl, rfl⟩

/-- C10: `ADD_DISPLAY` appends its payload for every store state, growing
the display count by exactly one with no capacity check; the `addDisplay`
callback does the same with its fixed default payload. -/
theorem reducer_addDisplay_appends (s : State) (p : DisplayInfo) :
    reducer s (Action.addDisplay p) = { displays := s.displays ++ [p] } ∧
    (reducer s (Action.addDisplay p)).displays.length =
      s.displays.length + 1 ∧
    (addDisplay s).displays.length = s.displays.length + 1 := by
  refine ⟨rfl, ?_, ?_⟩ <;> simp [reducer, addDisplay]

end ScreenListControl
